import Mathlib

/-!
Verification of the baseball statistics pipeline (`src/main.rs`).

The development shallowly embeds the cleaning → grouping → aggregation →
ranking pipeline:

* Rust `u32` values are embedded as `Nat`.  All arithmetic performed by the
  program (season years, per-season counting stats and their career sums over
  at most a few thousand seasons) stays far below `2^32`, and a debug build
  would panic rather than wrap on overflow, so no modular reduction is needed
  for the properties below; the one place the `u32` range itself matters —
  `str::parse::<u32>` rejecting out-of-range text — is modelled explicitly by
  the range check in `parseU32Chars`.
* Rust `f64` fields hold finite decimal statistics; they are embedded as `ℚ`
  (exact values), and `str::parse::<f64>` is modelled on its finite-decimal
  fragment (optional sign, digits, optional fractional part).  The `inf`,
  `nan` and exponent forms of the `f64` grammar never occur in this data and
  are not modelled.
* String trimming is modelled on `List Char` (`trimChars`), matching
  `str::trim` on ASCII whitespace.
* Fallible operations (the `[0..10]` slice that panics when fewer than 10
  records exist, the `.min().unwrap()` on a possibly-empty group) return
  `Option`, with `none` marking the panic.
* Rust's `sort_by` is a stable sort; a stable sort under a total preorder
  comparator has a unique result, embedded here as `List.insertionSort`
  (which is stable) with the source's comparator
  `|a, b| b.metric.cmp(&a.metric)`, i.e. the relation `metric b ≤ metric a`.
* The `for` loops that build collections are embedded as left folds.
* The grouping `HashMap<String, Vec<CleanPlayerSeason>>` is embedded as an
  association list (`insertGroup` / `lookupGroup` / `buildGroups`): the
  *content* of each group (seasons pushed in input order) is faithful; the
  iteration order of the Rust `HashMap` itself is randomized per process and
  is not modelled.
-/

namespace RustBaseball

/-! ## Character-level models of the Rust string primitives -/

/-- Model of `str::trim` (ASCII whitespace) on character lists. -/
def trimChars (cs : List Char) : List Char :=
  ((cs.dropWhile Char.isWhitespace).reverse.dropWhile Char.isWhitespace).reverse

/-- Value of a digit string, most significant first (`digits.fold`-style
accumulation used by integer parsing). -/
def digitsToNat (cs : List Char) : Nat :=
  cs.foldl (fun acc c => acc * 10 + (c.toNat - 48)) 0

/-- Parse a non-empty all-digit character list to its value; `none`
otherwise. -/
def digitsOf (ds : List Char) : Option Nat :=
  if ds.isEmpty then none
  else if ds.all Char.isDigit then some (digitsToNat ds) else none

/-- Model of `str::parse::<u32>`: optional leading `+`, one or more ASCII
digits, value at most `u32::MAX`; anything else (including a leading `-`)
fails. -/
def parseU32Chars (cs : List Char) : Option Nat :=
  match digitsOf (if cs.head? = some '+' then cs.tail else cs) with
  | none => none
  | some n => if n < 4294967296 then some n else none

/-- Model of `str::parse::<f64>` on its finite-decimal fragment: optional
sign, then digits with at most one decimal point and at least one digit;
the value is kept exactly as a rational. -/
def parseDecimalChars (cs : List Char) : Option ℚ :=
  let sgn : ℚ := if cs.head? = some '-' then -1 else 1
  let ds := if cs.head? = some '-' ∨ cs.head? = some '+' then cs.tail else cs
  let intPart := ds.takeWhile (fun c => c ≠ '.')
  match ds.dropWhile (fun c => c ≠ '.') with
  | [] =>
    (digitsOf intPart).map (fun n => sgn * n)
  | _ :: fracPart =>
    if fracPart.contains '.' then none
    else if intPart.isEmpty && fracPart.isEmpty then none
    else if intPart.all Char.isDigit && fracPart.all Char.isDigit then
      some (sgn * ((digitsToNat intPart : ℚ) +
        (digitsToNat fracPart : ℚ) / (10 ^ fracPart.length)))
    else none

/-- Mathematical value of optionally-signed integer text (spec-side
characterization of "parses to an integer", used to state the out-of-range
claim); `none` when the text is not integer text at all. -/
def intTextValue (cs : List Char) : Option Int :=
  if cs.head? = some '+' then (digitsOf cs.tail).map Int.ofNat
  else if cs.head? = some '-' then (digitsOf cs.tail).map (fun n => -(Int.ofNat n))
  else (digitsOf cs).map Int.ofNat

/-! ## Data model (`PlayerSeason`, `CleanPlayerSeason`, `AggregatedPlayer`) -/

/-- The as-ingested record (`struct PlayerSeason` in the source): the dirty
numeric fields are raw strings. -/
structure PlayerSeason where
  season : Nat
  first_name : Option String
  last_name : String
  link : String
  position : String
  team : String
  games_played : Nat
  at_bats : Nat
  runs : Nat
  hits : Nat
  doubles : Nat
  triples : Nat
  homeruns : Nat
  rbi : String
  walks : Nat
  strikeouts : Option ℚ
  stolen_bases : String
  caught_stealing : String
  batting_average : ℚ
  on_base_percentage : String
  slugging_percentage : ℚ
  on_base_plus_slugging : String
deriving DecidableEq

/-- The normalized record (`struct CleanPlayerSeason`): the dirty fields are
now tagged optionals. -/
structure CleanPlayerSeason where
  season : Nat
  first_name : Option String
  last_name : String
  link : String
  position : String
  team : String
  games_played : Nat
  at_bats : Nat
  runs : Nat
  hits : Nat
  doubles : Nat
  triples : Nat
  homeruns : Nat
  rbi : Option Nat
  walks : Nat
  strikeouts : Option ℚ
  stolen_bases : Option Nat
  caught_stealing : Option Nat
  batting_average : ℚ
  on_base_percentage : Option ℚ
  slugging_percentage : ℚ
  on_base_plus_slugging : Option ℚ
deriving DecidableEq

/-- One career summary per distinct `link` (`struct AggregatedPlayer`). -/
structure AggregatedPlayer where
  first_name : String
  last_name : String
  first_season : Nat
  last_season : Nat
  link : String
  seasons_played : Nat
  positions : String
  teams : String
  total_games_played : Nat
  total_at_bats : Nat
  total_runs : Nat
  total_hits : Nat
  total_doubles : Nat
  total_triples : Nat
  total_homeruns : Nat
  total_rbi : Nat
  total_walks : Nat
  total_strikeouts : ℚ
  total_stolen_bases : Nat
  total_caught_stealing : Nat
deriving DecidableEq

/-! ## Record normalizer (`parse_optional_number`, `parse_optional_float`,
`clean_player_data`) -/

/-- Embedding of `fn parse_optional_number(value: &str) -> Option<u32>`:
sentinel `"--"` or a whitespace-only value is missing data; otherwise the
trimmed value is parsed, a parse failure becoming `None` via `.ok()`. -/
def parse_optional_number (value : String) : Option Nat :=
  if value == "--" || (trimChars value.data).isEmpty then none
  else parseU32Chars (trimChars value.data)

/-- Embedding of `fn parse_optional_float(value: &str) -> Option<f64>`. -/
def parse_optional_float (value : String) : Option ℚ :=
  if value == "--" || (trimChars value.data).isEmpty then none
  else parseDecimalChars (trimChars value.data)

/-- Embedding of `fn clean_player_data(raw: PlayerSeason) -> CleanPlayerSeason`.
The function is total, exactly as in the source: no row is ever rejected. -/
def clean_player_data (raw : PlayerSeason) : CleanPlayerSeason :=
  { season := raw.season
    first_name := raw.first_name
    last_name := raw.last_name
    link := raw.link
    position := raw.position
    team := raw.team
    games_played := raw.games_played
    at_bats := raw.at_bats
    runs := raw.runs
    hits := raw.hits
    doubles := raw.doubles
    triples := raw.triples
    homeruns := raw.homeruns
    rbi := parse_optional_number raw.rbi
    walks := raw.walks
    strikeouts := raw.strikeouts
    stolen_bases := parse_optional_number raw.stolen_bases
    caught_stealing := parse_optional_number raw.caught_stealing
    batting_average := raw.batting_average
    on_base_percentage := parse_optional_float raw.on_base_percentage
    slugging_percentage := raw.slugging_percentage
    on_base_plus_slugging := parse_optional_float raw.on_base_plus_slugging }

/-- Embedding of the cleaning loop
`for raw_record in &raw_records { clean_records.push(clean_player_data(...)) }`. -/
def clean_records_of (raws : List PlayerSeason) : List CleanPlayerSeason :=
  raws.foldl (fun acc raw => acc ++ [clean_player_data raw]) []

/-- The five string-typed optional numeric fields of a raw row. -/
inductive OptField where
  | rbi
  | stolenBases
  | caughtStealing
  | obp
  | ops
deriving DecidableEq

/-- Raw string held by an optional numeric field. -/
def rawOptField : OptField → PlayerSeason → String
  | .rbi, r => r.rbi
  | .stolenBases, r => r.stolen_bases
  | .caughtStealing, r => r.caught_stealing
  | .obp, r => r.on_base_percentage
  | .ops, r => r.on_base_plus_slugging

/-- Whether a normalized optional field is absent. -/
def cleanOptFieldAbsent : OptField → CleanPlayerSeason → Bool
  | .rbi, c => c.rbi.isNone
  | .stolenBases, c => c.stolen_bases.isNone
  | .caughtStealing, c => c.caught_stealing.isNone
  | .obp, c => c.on_base_percentage.isNone
  | .ops, c => c.on_base_plus_slugging.isNone

/-- The trimmed raw text of the field fails to parse as the field's target
numeric type (`u32` for the integer fields, `f64` for the decimal fields). -/
def optFieldParseFails (f : OptField) (raw : PlayerSeason) : Prop :=
  match f with
  | .rbi | .stolenBases | .caughtStealing =>
    parseU32Chars (trimChars (rawOptField f raw).data) = none
  | .obp | .ops =>
    parseDecimalChars (trimChars (rawOptField f raw).data) = none

/-! ## Grouping (`player_groups: HashMap<String, Vec<CleanPlayerSeason>>`) -/

/-- Embedding of `player_groups.entry(link).or_insert(Vec::new()).push(p)`
on the association-list view of the map. -/
def insertGroup (gs : List (String × List CleanPlayerSeason)) (key : String)
    (p : CleanPlayerSeason) : List (String × List CleanPlayerSeason) :=
  match gs with
  | [] => [(key, [p])]
  | (k, v) :: rest =>
    if k == key then (k, v ++ [p]) :: rest else (k, v) :: insertGroup rest key p

/-- Group content under a key (`player_groups[link]`), `[]` when absent. -/
def lookupGroup (gs : List (String × List CleanPlayerSeason)) (key : String) :
    List CleanPlayerSeason :=
  match gs with
  | [] => []
  | (k, v) :: rest => if k == key then v else lookupGroup rest key

/-- Embedding of the grouping loop `for player in &clean_records { ... }`. -/
def buildGroups (records : List CleanPlayerSeason) :
    List (String × List CleanPlayerSeason) :=
  records.foldl (fun gs p => insertGroup gs p.link p) []

/-- State-passing embedding of the grouping pass: the loop reads the season
store through a shared reference and pushes *clones* into the groups, so the
store flows through the fold unchanged alongside the groups being built. -/
def aggregationPass (store : List CleanPlayerSeason) :
    List CleanPlayerSeason × List (String × List CleanPlayerSeason) :=
  store.foldl (fun acc p => (acc.1 ++ [p], insertGroup acc.2 p.link p)) ([], [])

/-! ## Career aggregation (the `for (link, seasons) in &player_groups` body) -/

/-- First-seen-order deduplication (`if !unique.contains(&v) { unique.push(v) }`). -/
def uniqueValues (xs : List String) : List String :=
  xs.foldl (fun acc x => if acc.contains x then acc else acc ++ [x]) []

/-- Embedding of the aggregation loop body for one group.  `none` models the
`unwrap()` panic on an empty group (which the grouping never produces). -/
def aggregatePlayer (link : String) (seasons : List CleanPlayerSeason) :
    Option AggregatedPlayer :=
  match seasons with
  | [] => none
  | first :: rest =>
    some
      { link := link
        first_name := first.first_name.getD "N/A"
        last_name := first.last_name
        first_season := rest.foldl (fun acc s => Nat.min acc s.season) first.season
        last_season := rest.foldl (fun acc s => Nat.max acc s.season) first.season
        seasons_played := (first :: rest).length
        positions := String.intercalate ", "
          (uniqueValues ((first :: rest).map (fun s => s.position)))
        teams := String.intercalate ", "
          (uniqueValues ((first :: rest).map (fun s => s.team)))
        total_games_played := ((first :: rest).map (fun s => s.games_played)).sum
        total_at_bats := ((first :: rest).map (fun s => s.at_bats)).sum
        total_runs := ((first :: rest).map (fun s => s.runs)).sum
        total_hits := ((first :: rest).map (fun s => s.hits)).sum
        total_doubles := ((first :: rest).map (fun s => s.doubles)).sum
        total_triples := ((first :: rest).map (fun s => s.triples)).sum
        total_homeruns := ((first :: rest).map (fun s => s.homeruns)).sum
        total_walks := ((first :: rest).map (fun s => s.walks)).sum
        total_rbi := ((first :: rest).map (fun s => s.rbi.getD 0)).sum
        total_strikeouts := ((first :: rest).map (fun s => s.strikeouts.getD 0)).sum
        total_stolen_bases := ((first :: rest).map (fun s => s.stolen_bases.getD 0)).sum
        total_caught_stealing := ((first :: rest).map (fun s => s.caught_stealing.getD 0)).sum }

/-! ## Ranking (`sort_by(|a, b| b.metric.cmp(&a.metric))` plus `[0..10]`) -/

/-- Embedding of Rust's stable `sort_by` with comparator
`|a, b| metric(b).cmp(&metric(a))` (descending by the metric): a stable sort
under a total preorder has a unique result, realized here by the stable
`List.insertionSort`. -/
def sortByMetricDesc {α : Type} (metric : α → Nat) (l : List α) : List α :=
  l.insertionSort (fun a b => metric b ≤ metric a)

/-- `sorted_by_homeruns` from the `homeruns` report. -/
def sorted_by_homeruns (records : List CleanPlayerSeason) : List CleanPlayerSeason :=
  sortByMetricDesc (fun s => s.homeruns) records

/-- `sorted_by_hits` from the `seasons` report. -/
def sorted_by_hits (records : List CleanPlayerSeason) : List CleanPlayerSeason :=
  sortByMetricDesc (fun s => s.hits) records

/-- `sorted_career_by_homeruns` from the `homeruns` report. -/
def sorted_career_by_homeruns (players : List AggregatedPlayer) : List AggregatedPlayer :=
  sortByMetricDesc (fun p => p.total_homeruns) players

/-- The slice `&sorted_by_homeruns[0..10]`; `none` models the out-of-bounds
panic when fewer than 10 records exist. -/
def top_10_homeruns (records : List CleanPlayerSeason) : Option (List CleanPlayerSeason) :=
  if (sorted_by_homeruns records).length < 10 then none
  else some ((sorted_by_homeruns records).take 10)

/-- The slice `&sorted_career_by_homeruns[0..10]`. -/
def top_10_career_homeruns (players : List AggregatedPlayer) : Option (List AggregatedPlayer) :=
  if (sorted_career_by_homeruns players).length < 10 then none
  else some ((sorted_career_by_homeruns players).take 10)

/-! ## Concrete sample data used by the closed scenarios and witnesses -/

/-- A raw row template (1920 Babe Ruth); the five dirty string fields are the
arguments. -/
def mkRaw (rbiV sbV csV obpV opsV : String) : PlayerSeason :=
  { season := 1920
    first_name := some "Babe"
    last_name := "Ruth"
    link := "ruth-babe"
    position := "RF"
    team := "NYY"
    games_played := 142
    at_bats := 458
    runs := 158
    hits := 172
    doubles := 36
    triples := 9
    homeruns := 54
    rbi := rbiV
    walks := 150
    strikeouts := none
    stolen_bases := sbV
    caught_stealing := csV
    batting_average := 0
    on_base_percentage := obpV
    slugging_percentage := 0
    on_base_plus_slugging := opsV }

/-- A clean season template. -/
def mkSeason (seasonV hrV hitsV : Nat) (lnV linkV teamV : String)
    (rbiV : Option Nat) : CleanPlayerSeason :=
  { season := seasonV
    first_name := some "Babe"
    last_name := lnV
    link := linkV
    position := "RF"
    team := teamV
    games_played := 0
    at_bats := 0
    runs := 0
    hits := hitsV
    doubles := 0
    triples := 0
    homeruns := hrV
    rbi := rbiV
    walks := 0
    strikeouts := none
    stolen_bases := none
    caught_stealing := none
    batting_average := 0
    on_base_percentage := none
    slugging_percentage := 0
    on_base_plus_slugging := none }

/-- A raw row whose `rbi` field holds non-sentinel junk text. -/
def rowAbc : PlayerSeason := mkRaw "abc" "14" "14" "0.532" "1.379"

/-- A raw row whose `stolen_bases` field holds non-sentinel junk text. -/
def rowJunk : PlayerSeason := mkRaw "12" "n/a" "3" "0.4" "0.9"

/-- A raw row with `rbi = "88"`. -/
def row88 : PlayerSeason := mkRaw "88" "17" "4" "0.376" "1.049"

/-- A raw row with every optional field set to the sentinel. -/
def rowDash : PlayerSeason := mkRaw "--" "--" "--" "--" "--"

/-- A raw row with out-of-`u32`-range integer text in the three optional
integer fields. -/
def rowNeg : PlayerSeason := mkRaw "-5" "999999999999" "4294967296" "0.3" "0.9"

/-- The three Babe Ruth seasons of the concrete aggregation scenario. -/
def ruthSeasons : List CleanPlayerSeason :=
  [mkSeason 1920 54 172 "Ruth" "ruth-babe" "NYY" none,
   mkSeason 1921 59 204 "Ruth" "ruth-babe" "NYY" none,
   mkSeason 1927 60 192 "Ruth" "ruth-babe" "NYY" none]

/-- The five seasons of the concrete ranking scenario, homeruns
`[10, 40, 40, 5, 25]`. -/
def hr10 : CleanPlayerSeason := mkSeason 1931 10 100 "Alpha" "alpha" "NYY" none

/-- First of the two 40-homerun seasons. -/
def hr40a : CleanPlayerSeason := mkSeason 1932 40 110 "Bravo" "bravo" "BOS" none

/-- Second of the two 40-homerun seasons. -/
def hr40b : CleanPlayerSeason := mkSeason 1933 40 120 "Charlie" "charlie" "CHC" none

/-- The 5-homerun season. -/
def hr5 : CleanPlayerSeason := mkSeason 1934 5 130 "Delta" "delta" "DET" none

/-- The 25-homerun season. -/
def hr25 : CleanPlayerSeason := mkSeason 1935 25 140 "Echo" "echo" "STL" none

/-- Input order of the ranking scenario. -/
def fiveSeasons : List CleanPlayerSeason := [hr10, hr40a, hr40b, hr5, hr25]

/-- A store holding a single season (rookie group of size 1). -/
def soloStore : List CleanPlayerSeason :=
  [mkSeason 1950 12 80 "Solo" "solo" "BOS" none]

/-- A season whose `rbi` is absent, for the frame-condition witness. -/
def noRbiSeason : CleanPlayerSeason := mkSeason 1960 5 50 "NoRbi" "norbi" "CHC" none

/-! ## Helper lemmas -/

/-- When the trimmed text does not parse as `u32`, `parse_optional_number`
returns `none` (either via the sentinel branch or via `.ok()`). -/
theorem parse_optional_number_of_parse_none {s : String}
    (h : parseU32Chars (trimChars s.data) = none) :
    parse_optional_number s = none := by
  unfold parse_optional_number
  split
  · rfl
  · exact h

/-- When the trimmed text does not parse as `f64`, `parse_optional_float`
returns `none`. -/
theorem parse_optional_float_of_parse_none {s : String}
    (h : parseDecimalChars (trimChars s.data) = none) :
    parse_optional_float s = none := by
  unfold parse_optional_float
  split
  · rfl
  · exact h

/-- A value that trims to the sentinel or to nothing normalizes to `none`. -/
theorem parse_optional_number_sentinel {s : String}
    (h : trimChars s.data = "--".data ∨ trimChars s.data = []) :
    parse_optional_number s = none := by
  apply parse_optional_number_of_parse_none
  rcases h with h | h <;> rw [h] <;> decide

/-- Decimal version of `parse_optional_number_sentinel`. -/
theorem parse_optional_float_sentinel {s : String}
    (h : trimChars s.data = "--".data ∨ trimChars s.data = []) :
    parse_optional_float s = none := by
  apply parse_optional_float_of_parse_none
  rcases h with h | h <;> rw [h] <;> decide

/-- Integer text whose mathematical value lies outside the `u32` range is
rejected by the `u32` parser. -/
theorem parseU32Chars_out_of_range {cs : List Char} {n : Int}
    (h1 : intTextValue cs = some n)
    (h2 : n < 0 ∨ (4294967296 : Int) ≤ n) :
    parseU32Chars cs = none := by
  unfold intTextValue at h1
  unfold parseU32Chars
  by_cases hp : cs.head? = some '+'
  · rw [if_pos hp] at h1 ⊢
    obtain ⟨m, hm, rfl⟩ := Option.map_eq_some'.mp h1
    rw [hm]
    have hge : 4294967296 ≤ m := by
      simp only [Int.ofNat_eq_coe] at h2
      omega
    simp [Nat.not_lt_of_le hge]
  · rw [if_neg hp] at h1 ⊢
    by_cases hn : cs.head? = some '-'
    · cases cs with
      | nil => simp at hn
      | cons c t =>
        have hc : c = '-' := by simpa using hn
        subst hc
        have hd : digitsOf ('-' :: t) = none := by
          unfold digitsOf
          simp [List.all_cons]
        rw [hd]
    · rw [if_neg hn] at h1
      obtain ⟨m, hm, rfl⟩ := Option.map_eq_some'.mp h1
      rw [hm]
      have hge : 4294967296 ≤ m := by
        simp only [Int.ofNat_eq_coe] at h2
        omega
      simp [Nat.not_lt_of_le hge]

/-- The running minimum over a fold never exceeds its seed. -/
theorem foldl_min_le (xs : List CleanPlayerSeason) (s0 : Nat) :
    xs.foldl (fun acc s => Nat.min acc s.season) s0 ≤ s0 := by
  induction xs generalizing s0 with
  | nil => exact Nat.le_refl s0
  | cons x xs ih =>
    exact Nat.le_trans (ih (Nat.min s0 x.season)) (Nat.min_le_left _ _)

/-- The seed never exceeds the running maximum of a fold. -/
theorem le_foldl_max (xs : List CleanPlayerSeason) (s0 : Nat) :
    s0 ≤ xs.foldl (fun acc s => Nat.max acc s.season) s0 := by
  induction xs generalizing s0 with
  | nil => exact Nat.le_refl s0
  | cons x xs ih =>
    exact Nat.le_trans (Nat.le_max_left _ _) (ih (Nat.max s0 x.season))

/-- Looking a key up after one insertion: the inserted record lands at the end
of exactly the key's group. -/
theorem lookupGroup_insertGroup (gs : List (String × List CleanPlayerSeason))
    (key : String) (p : CleanPlayerSeason) (link : String) :
    lookupGroup (insertGroup gs key p) link =
      if key == link then lookupGroup gs link ++ [p] else lookupGroup gs link := by
  induction gs with
  | nil =>
    by_cases h : key == link <;> simp [insertGroup, lookupGroup, h]
  | cons kv rest ih =>
    obtain ⟨k, v⟩ := kv
    by_cases hk : k == key
    · have hk' : k = key := by simpa using hk
      subst hk'
      by_cases hl : k == link
      · simp [insertGroup, lookupGroup, hk, hl]
      · simp [insertGroup, lookupGroup, hk, hl]
    · by_cases hl : k == link
      · have hl' : k = link := by simpa using hl
        subst hl'
        have hkey : ¬(k == key) = true := hk
        have : ¬(key == k) = true := by
          simp only [beq_iff_eq] at hkey ⊢
          exact fun h => hkey h.symm
        simp [insertGroup, lookupGroup, hk, hl, this]
      · simp [insertGroup, lookupGroup, hk, hl, ih]

/-- Folding the grouping step over records appends each record to its key's
group, in input order. -/
theorem lookupGroup_foldl (records : List CleanPlayerSeason)
    (gs : List (String × List CleanPlayerSeason)) (link : String) :
    lookupGroup (records.foldl (fun g p => insertGroup g p.link p) gs) link =
      lookupGroup gs link ++ records.filter (fun r => r.link == link) := by
  induction records generalizing gs with
  | nil => simp
  | cons p rec ih =>
    rw [List.foldl_cons, ih, lookupGroup_insertGroup]
    by_cases hp : p.link == link
    · simp [List.filter_cons, hp]
    · simp [List.filter_cons, hp]

/-- The group stored under a key is exactly the sublist of input records
carrying that key, in input order. -/
theorem lookupGroup_buildGroups (records : List CleanPlayerSeason) (link : String) :
    lookupGroup (buildGroups records) link =
      records.filter (fun r => r.link == link) := by
  unfold buildGroups
  rw [lookupGroup_foldl]
  rfl

/-- The state-passing grouping fold rebuilds the store unchanged next to the
groups. -/
theorem aggregationPass_foldl (store : List CleanPlayerSeason)
    (l : List CleanPlayerSeason) (g : List (String × List CleanPlayerSeason)) :
    store.foldl (fun acc p => (acc.1 ++ [p], insertGroup acc.2 p.link p)) (l, g) =
      (l ++ store, store.foldl (fun gs p => insertGroup gs p.link p) g) := by
  induction store generalizing l g with
  | nil => simp
  | cons p rec ih =>
    rw [List.foldl_cons, List.foldl_cons]
    rw [ih]
    simp

/-- The cleaning loop is `List.map clean_player_data`. -/
theorem clean_records_of_eq_map (raws : List PlayerSeason) :
    clean_records_of raws = raws.map clean_player_data := by
  unfold clean_records_of
  suffices h : ∀ (rs : List PlayerSeason) (acc : List CleanPlayerSeason),
      rs.foldl (fun acc raw => acc ++ [clean_player_data raw]) acc =
        acc ++ rs.map clean_player_data by
    simpa using h raws []
  intro rs
  induction rs with
  | nil => simp
  | cons r rest ih =>
    intro acc
    rw [List.foldl_cons, ih]
    simp

/-- Stability of the descending stable sort: the sublist of entries whose
metric equals any fixed value is untouched by sorting. -/
theorem filter_sortByMetricDesc {α : Type} (metric : α → Nat) (v : Nat)
    (l : List α) :
    (sortByMetricDesc metric l).filter (fun x => metric x == v) =
      l.filter (fun x => metric x == v) := by
  classical
  have hsub : List.Sublist (l.filter (fun x => metric x == v))
      (List.insertionSort (fun a b => metric b ≤ metric a) l) := by
    apply List.sublist_insertionSort
    · apply List.pairwise_of_forall_mem_list
      intro a ha b hb
      have ha' : metric a = v := by simpa using List.of_mem_filter ha
      have hb' : metric b = v := by simpa using List.of_mem_filter hb
      rw [ha', hb']
    · exact List.filter_sublist l
  have hfil : List.Sublist (l.filter (fun x => metric x == v))
      ((List.insertionSort (fun a b => metric b ≤ metric a) l).filter
        (fun x => metric x == v)) := by
    have h2 := hsub.filter (fun x => metric x == v)
    rw [List.filter_filter] at h2
    simpa only [Bool.and_self] using h2
  have hperm : List.Perm
      ((List.insertionSort (fun a b => metric b ≤ metric a) l).filter
        (fun x => metric x == v)) (l.filter (fun x => metric x == v)) :=
    (List.perm_insertionSort _ l).filter _
  exact (hfil.eq_of_length hperm.length_eq.symm).symm

/-- The descending stable sort sorts: its output is pairwise descending in
the metric. -/
theorem sorted_sortByMetricDesc {α : Type} (metric : α → Nat) (l : List α) :
    List.Sorted (fun a b => metric b ≤ metric a) (sortByMetricDesc metric l) := by
  letI : IsTotal α (fun a b => metric b ≤ metric a) :=
    ⟨fun a b => (Nat.le_total (metric b) (metric a)).imp id id⟩
  letI : IsTrans α (fun a b => metric b ≤ metric a) :=
    ⟨fun _ _ _ hab hbc => Nat.le_trans hbc hab⟩
  exact List.sorted_insertionSort _ l

/-! ## Claims -/

/-- Claim C1, counterexample: the claim says a non-empty, non-sentinel,
non-parsing optional field (e.g. `rbi = "abc"`) fails the row with a
`NormalizationError`; in the code `clean_player_data` is total and
`parse_optional_number` turns the parse failure into `None` via `.ok()`, so
the `"abc"` row cleans successfully with `rbi` silently absent. -/
theorem claim_C1_counterexample :
    (clean_player_data rowAbc).rbi = none ∧ parse_optional_number "abc" = none := by
  exact ⟨by decide, by decide⟩

/-- Claim C1 (amended): for every raw season row, an optional numeric field
whose (trimmed) text does not parse as the target numeric type is silently
treated as absent in the cleaned record; normalization is total and never
fails a row. -/
theorem claim_C1 (f : OptField) (raw : PlayerSeason)
    (h : optFieldParseFails f raw) :
    cleanOptFieldAbsent f (clean_player_data raw) = true := by
  cases f with
  | rbi =>
    have h' : parseU32Chars (trimChars raw.rbi.data) = none := h
    show (parse_optional_number raw.rbi).isNone = true
    rw [parse_optional_number_of_parse_none h']
    rfl
  | stolenBases =>
    have h' : parseU32Chars (trimChars raw.stolen_bases.data) = none := h
    show (parse_optional_number raw.stolen_bases).isNone = true
    rw [parse_optional_number_of_parse_none h']
    rfl
  | caughtStealing =>
    have h' : parseU32Chars (trimChars raw.caught_stealing.data) = none := h
    show (parse_optional_number raw.caught_stealing).isNone = true
    rw [parse_optional_number_of_parse_none h']
    rfl
  | obp =>
    have h' : parseDecimalChars (trimChars raw.on_base_percentage.data) = none := h
    show (parse_optional_float raw.on_base_percentage).isNone = true
    rw [parse_optional_float_of_parse_none h']
    rfl
  | ops =>
    have h' : parseDecimalChars (trimChars raw.on_base_plus_slugging.data) = none := h
    show (parse_optional_float raw.on_base_plus_slugging).isNone = true
    rw [parse_optional_float_of_parse_none h']
    rfl

/-- Claim C1, witness: junk text in the `stolen_bases` field of a concrete
row is treated as absent. -/
theorem claim_C1_witness :
    cleanOptFieldAbsent OptField.stolenBases (clean_player_data rowJunk) = true :=
  claim_C1 OptField.stolenBases rowJunk
    (by decide :
      parseU32Chars (trimChars (rawOptField OptField.stolenBases rowJunk).data) = none)

/-- Claim C2: with fewer than 10 records, each fixed top-10 slice fails
(out-of-bounds, modelled as `none`) instead of silently returning fewer
rows. -/
theorem claim_C2 (records : List CleanPlayerSeason) (players : List AggregatedPlayer)
    (h1 : records.length < 10) (h2 : players.length < 10) :
    top_10_homeruns records = none ∧ top_10_career_homeruns players = none := by
  constructor
  · have hl : (sorted_by_homeruns records).length < 10 := by
      unfold sorted_by_homeruns sortByMetricDesc
      rw [List.length_insertionSort]
      exact h1
    simp [top_10_homeruns, hl]
  · have hl : (sorted_career_by_homeruns players).length < 10 := by
      unfold sorted_career_by_homeruns sortByMetricDesc
      rw [List.length_insertionSort]
      exact h2
    simp [top_10_career_homeruns, hl]

/-- Claim C2, witness: both top-10 slices fail on empty collections. -/
theorem claim_C2_witness :
    top_10_homeruns [] = none ∧ top_10_career_homeruns [] = none :=
  claim_C2 [] [] (by decide) (by decide)

/-- Claim C4: each career total equals the sum over the group's seasons of
that stat, an absent optional value contributing exactly 0 (0 in `ℚ` for the
decimal field); concretely, the three `"ruth-babe"` seasons with homeruns
`[54, 59, 60]` in seasons `[1920, 1921, 1927]` aggregate to
`total_homeruns = 173`, `first_season = 1920`, `last_season = 1927`,
`seasons_played = 3`. -/
theorem claim_C4 (link : String) (seasons : List CleanPlayerSeason)
    (h : seasons ≠ []) :
    (aggregatePlayer link seasons).map (fun a => a.total_games_played) =
      some ((seasons.map (fun s => s.games_played)).sum) ∧
    (aggregatePlayer link seasons).map (fun a => a.total_at_bats) =
      some ((seasons.map (fun s => s.at_bats)).sum) ∧
    (aggregatePlayer link seasons).map (fun a => a.total_runs) =
      some ((seasons.map (fun s => s.runs)).sum) ∧
    (aggregatePlayer link seasons).map (fun a => a.total_hits) =
      some ((seasons.map (fun s => s.hits)).sum) ∧
    (aggregatePlayer link seasons).map (fun a => a.total_doubles) =
      some ((seasons.map (fun s => s.doubles)).sum) ∧
    (aggregatePlayer link seasons).map (fun a => a.total_triples) =
      some ((seasons.map (fun s => s.triples)).sum) ∧
    (aggregatePlayer link seasons).map (fun a => a.total_homeruns) =
      some ((seasons.map (fun s => s.homeruns)).sum) ∧
    (aggregatePlayer link seasons).map (fun a => a.total_walks) =
      some ((seasons.map (fun s => s.walks)).sum) ∧
    (aggregatePlayer link seasons).map (fun a => a.total_rbi) =
      some ((seasons.map (fun s => s.rbi.getD 0)).sum) ∧
    (aggregatePlayer link seasons).map (fun a => a.total_strikeouts) =
      some ((seasons.map (fun s => s.strikeouts.getD 0)).sum) ∧
    (aggregatePlayer link seasons).map (fun a => a.total_stolen_bases) =
      some ((seasons.map (fun s => s.stolen_bases.getD 0)).sum) ∧
    (aggregatePlayer link seasons).map (fun a => a.total_caught_stealing) =
      some ((seasons.map (fun s => s.caught_stealing.getD 0)).sum) ∧
    (aggregatePlayer "ruth-babe" ruthSeasons).map (fun a => a.total_homeruns) =
      some 173 ∧
    (aggregatePlayer "ruth-babe" ruthSeasons).map (fun a => a.first_season) =
      some 1920 ∧
    (aggregatePlayer "ruth-babe" ruthSeasons).map (fun a => a.last_season) =
      some 1927 ∧
    (aggregatePlayer "ruth-babe" ruthSeasons).map (fun a => a.seasons_played) =
      some 3 := by
  obtain ⟨first, rest, rfl⟩ : ∃ f r, seasons = f :: r := by
    cases seasons with
    | nil => exact absurd rfl h
    | cons f r => exact ⟨f, r, rfl⟩
  refine ⟨rfl, rfl, rfl, rfl, rfl, rfl, rfl, rfl, rfl, rfl, rfl, rfl,
    by decide, by decide, by decide, by decide⟩

/-- Claim C4, witness: the Ruth group discharges the nonemptiness
hypothesis. -/
theorem claim_C4_witness :
    (aggregatePlayer "ruth-babe" ruthSeasons).map (fun a => a.total_games_played) =
      some ((ruthSeasons.map (fun s => s.games_played)).sum) :=
  (claim_C4 "ruth-babe" ruthSeasons (by decide)).1

/-- Claim C5: ranking is a stable descending sort: entries with any fixed
metric value keep their input order (both for the season homeruns sort and
the season hits sort), the output is pairwise descending, and sorting the
five seasons with homeruns `[10, 40, 40, 5, 25]` then taking 3 yields the
two 40-homerun seasons in input order followed by the 25-homerun season. -/
theorem claim_C5 :
    (∀ (l : List CleanPlayerSeason) (v : Nat),
      (sorted_by_homeruns l).filter (fun r => r.homeruns == v) =
        l.filter (fun r => r.homeruns == v)) ∧
    (∀ (l : List CleanPlayerSeason) (v : Nat),
      (sorted_by_hits l).filter (fun r => r.hits == v) =
        l.filter (fun r => r.hits == v)) ∧
    (∀ (l : List CleanPlayerSeason),
      List.Sorted (fun a b => b.homeruns ≤ a.homeruns) (sorted_by_homeruns l)) ∧
    (sorted_by_homeruns fiveSeasons).take 3 = [hr40a, hr40b, hr25] ∧
    ((sorted_by_homeruns fiveSeasons).take 3).map (fun r => r.homeruns) =
      [40, 40, 25] := by
  refine ⟨fun l v => filter_sortByMetricDesc (fun s => s.homeruns) v l,
    fun l v => filter_sortByMetricDesc (fun s => s.hits) v l,
    fun l => sorted_sortByMetricDesc (fun s => s.homeruns) l,
    by decide, by decide⟩

/-- Claim C6: an optional numeric field that trims to the sentinel `"--"` or
to nothing normalizes to an absent value (never an error, never zero), and a
parseable value such as `rbi = "88"` normalizes to the present value 88. -/
theorem claim_C6 (f : OptField) (raw : PlayerSeason)
    (h : trimChars (rawOptField f raw).data = "--".data ∨
      trimChars (rawOptField f raw).data = []) :
    cleanOptFieldAbsent f (clean_player_data raw) = true ∧
    (clean_player_data row88).rbi = some 88 := by
  refine ⟨?_, by decide⟩
  cases f with
  | rbi =>
    have h' : trimChars raw.rbi.data = "--".data ∨ trimChars raw.rbi.data = [] := h
    show (parse_optional_number raw.rbi).isNone = true
    rw [parse_optional_number_sentinel h']
    rfl
  | stolenBases =>
    have h' : trimChars raw.stolen_bases.data = "--".data ∨
      trimChars raw.stolen_bases.data = [] := h
    show (parse_optional_number raw.stolen_bases).isNone = true
    rw [parse_optional_number_sentinel h']
    rfl
  | caughtStealing =>
    have h' : trimChars raw.caught_stealing.data = "--".data ∨
      trimChars raw.caught_stealing.data = [] := h
    show (parse_optional_number raw.caught_stealing).isNone = true
    rw [parse_optional_number_sentinel h']
    rfl
  | obp =>
    have h' : trimChars raw.on_base_percentage.data = "--".data ∨
      trimChars raw.on_base_percentage.data = [] := h
    show (parse_optional_float raw.on_base_percentage).isNone = true
    rw [parse_optional_float_sentinel h']
    rfl
  | ops =>
    have h' : trimChars raw.on_base_plus_slugging.data = "--".data ∨
      trimChars raw.on_base_plus_slugging.data = [] := h
    show (parse_optional_float raw.on_base_plus_slugging).isNone = true
    rw [parse_optional_float_sentinel h']
    rfl

/-- Claim C6, witness: the all-sentinel row has an absent
`on_base_percentage`. -/
theorem claim_C6_witness :
    cleanOptFieldAbsent OptField.obp (clean_player_data rowDash) = true ∧
    (clean_player_data row88).rbi = some 88 :=
  claim_C6 OptField.obp rowDash (Or.inl (by decide))

/-- Claim C7: for every group produced by grouping-then-aggregation,
`seasons_played` equals the number of input rows sharing that `player_link`,
`first_season ≤ last_season`, and a group of size 1 yields
`first_season = last_season`. -/
theorem claim_C7 (records : List CleanPlayerSeason) (link : String)
    (h : records.filter (fun r => r.link == link) ≠ []) :
    (aggregatePlayer link (lookupGroup (buildGroups records) link)).map
        (fun a => a.seasons_played) =
      some ((records.filter (fun r => r.link == link)).length) ∧
    (aggregatePlayer link (lookupGroup (buildGroups records) link)).all
        (fun a => decide (a.first_season ≤ a.last_season)) = true ∧
    ((records.filter (fun r => r.link == link)).length = 1 →
      (aggregatePlayer link (lookupGroup (buildGroups records) link)).map
          (fun a => decide (a.first_season = a.last_season)) = some true) := by
  obtain ⟨first, rest, hfr⟩ : ∃ f r,
      records.filter (fun r => r.link == link) = f :: r := by
    cases hc : records.filter (fun r => r.link == link) with
    | nil => exact absurd hc h
    | cons f r => exact ⟨f, r, rfl⟩
  rw [lookupGroup_buildGroups, hfr]
  refine ⟨rfl, ?_, ?_⟩
  · show decide
      (rest.foldl (fun acc s => Nat.min acc s.season) first.season ≤
        rest.foldl (fun acc s => Nat.max acc s.season) first.season) = true
    exact decide_eq_true
      (Nat.le_trans (foldl_min_le rest first.season) (le_foldl_max rest first.season))
  · intro hlen
    have hr : rest = [] := by
      have : rest.length = 0 := by simpa using hlen
      exact List.eq_nil_of_length_eq_zero this
    subst hr
    show some (decide (first.season = first.season)) = some true
    exact congrArg some (decide_eq_true rfl)

/-- Claim C7, witness: a store with a single rookie season. -/
theorem claim_C7_witness :
    (aggregatePlayer "solo" (lookupGroup (buildGroups soloStore) "solo")).map
        (fun a => decide (a.first_season = a.last_season)) = some true :=
  (claim_C7 soloStore "solo" (by decide)).2.2 (by decide)

/-- Claim C8: the aggregation pass reads the season store without mutating
it — the store that flows through the grouping fold comes out unchanged, the
groups hold the very records of the store (so a season whose `rbi` is absent
is still absent inside its group), and such a season contributes exactly 0
to the career `total_rbi` sum. -/
theorem claim_C8 (store : List CleanPlayerSeason) (r : CleanPlayerSeason)
    (hr : r ∈ store) (hrbi : r.rbi = none) :
    (aggregationPass store).1 = store ∧
    (aggregationPass store).2 = buildGroups store ∧
    r ∈ lookupGroup (buildGroups store) r.link ∧
    r.rbi.getD 0 = 0 := by
  refine ⟨?_, ?_, ?_, by simp [hrbi]⟩
  · unfold aggregationPass
    rw [aggregationPass_foldl]
    simp
  · unfold aggregationPass
    rw [aggregationPass_foldl]
    rfl
  · rw [lookupGroup_buildGroups]
    exact List.mem_filter_of_mem hr (by simp)

/-- Claim C8, witness: a one-season store with absent `rbi`. -/
theorem claim_C8_witness :
    (aggregationPass [noRbiSeason]).1 = [noRbiSeason] :=
  (claim_C8 [noRbiSeason] noRbiSeason (List.mem_cons_self _ _) rfl).1

/-- Claim C9: cleaning is total and 1-to-1 in order: the cleaned collection
has the same length as the raw collection and its i-th entry is exactly the
cleaning of the i-th raw row — no row is dropped or reordered. -/
theorem claim_C9 (raws : List PlayerSeason) (i : Nat) :
    (clean_records_of raws).length = raws.length ∧
    (clean_records_of raws)[i]? = (raws[i]?).map clean_player_data := by
  rw [clean_records_of_eq_map]
  exact ⟨by simp, List.getElem?_map clean_player_data raws i⟩

/-- Claim C10: integer text whose value lies outside the `u32` range (such
as `"-5"` or values above 4294967295) is treated by `parse_optional_number`
exactly like missing data (`none`), and hence the cleaned optional integer
fields of such a row are absent. -/
theorem claim_C10 (s : String) (n : Int)
    (h1 : intTextValue (trimChars s.data) = some n)
    (h2 : n < 0 ∨ (4294967296 : Int) ≤ n) :
    parse_optional_number s = none ∧
    (clean_player_data rowNeg).rbi = none ∧
    (clean_player_data rowNeg).stolen_bases = none ∧
    (clean_player_data rowNeg).caught_stealing = none :=
  ⟨parse_optional_number_of_parse_none (parseU32Chars_out_of_range h1 h2),
    by decide, by decide, by decide⟩

/-- Claim C10, witness: the string `"-5"` parses to the out-of-range integer
−5 and normalizes to `none`. -/
theorem claim_C10_witness : parse_optional_number "-5" = none :=
  (claim_C10 "-5" (-5) (by decide) (Or.inl (by decide))).1

end RustBaseball
